import Mathlib

/-!
Shallow embedding of the X67 classifieds-marketplace backend (src/server.py).

Collections of the Mongo document store are modelled as Lean lists; the
store primitives `find_one`, `update_one`, `delete_one`, `delete_many`
become `List.find?`, `updateFirst`, `deleteFirst` and `List.filter`.
Wall-clock instants (ISO timestamp strings in the source) are modelled as
`Nat` seconds since the epoch, which is order-isomorphic to the ISO-UTC
string ordering the store uses; `timedelta(days=1)` is 86400 seconds and
`timedelta(days=7)` is 604800 seconds.  Each request handler becomes a
pure function from the database state (plus the authenticated caller and
the current time where the handler reads them) to a response paired with
the new database state.
-/

namespace X67

/-- Semantics of Mongo `update_one`: apply `f` to the first element
satisfying `p`, leave everything else unchanged. -/
def updateFirst (p : α → Bool) (f : α → α) : List α → List α
  | [] => []
  | x :: xs => if p x then f x :: xs else x :: updateFirst p f xs

/-- Semantics of Mongo `delete_one`: drop the first element satisfying `p`. -/
def deleteFirst (p : α → Bool) : List α → List α
  | [] => []
  | x :: xs => if p x then xs else x :: deleteFirst p xs

/-- Case-insensitive substring test over character lists, modelling the
`$regex` + `"$options": "i"` filter of the listing query. -/
def hasInfixChars (pat : List Char) : List Char → Bool
  | [] => pat.isEmpty
  | c :: cs => List.isPrefixOf pat (c :: cs) || hasInfixChars pat cs

/-- Case-insensitive substring match between strings. -/
def containsCI (hay pat : String) : Bool :=
  hasInfixChars pat.toLower.data hay.toLower.data

/-- User document (collection `users`). `referral_count` defaults to 0 in
the source (`user.get("referral_count", 0)`), so it is a plain `Nat`. -/
structure User where
  user_id : String
  email : String
  name : String
  role : String
  referral_count : Nat
  is_blocked : Bool
deriving Repr, DecidableEq

/-- Session document (collection `user_sessions`). -/
structure Session where
  session_token : String
  user_id : String
  expires_at : Nat
deriving Repr, DecidableEq

/-- Ad document (collection `ads`), with exactly the fields written by
`create_ad` in src/server.py. -/
structure Ad where
  ad_id : String
  user_id : String
  title : String
  description : String
  category_id : String
  subcategory_id : Option String
  city_id : String
  price : Option Int
  price_type : String
  contact_phone : String
  contact_email : String
  images : List String
  details : List (String × String)
  status : String
  is_boosted : Bool
  boost_expires_at : Option Nat
  is_promoted : Bool
  promote_expires_at : Option Nat
  views : Nat
  is_paid : Bool
  auto_topup : Bool
  topup_rank : Nat
  last_topup : Option Nat
  created_at : Nat
  updated_at : Nat
deriving Repr, DecidableEq

/-- Payment document (collection `payments`). -/
structure Payment where
  payment_id : String
  order_code : Nat
  ad_id : String
  user_id : String
  payment_type : String
  amount : Nat
  status : String
  transaction_id : Option String
  created_at : Nat
  completed_at : Option Nat
deriving Repr, DecidableEq

/-- Favorite document (collection `favorites`). -/
structure Favorite where
  favorite_id : String
  user_id : String
  ad_id : String
  price_at_favorite : Option Int
  created_at : Nat
deriving Repr, DecidableEq

/-- Message document (collection `messages`). -/
structure Message where
  message_id : String
  conversation_id : String
  sender_id : String
  receiver_id : String
  content : String
  is_read : Bool
  created_at : Nat
deriving Repr, DecidableEq

/-- The document store: one list per collection touched by the modelled
handlers. -/
structure DB where
  users : List User
  user_sessions : List Session
  ads : List Ad
  payments : List Payment
  favorites : List Favorite
  messages : List Message
deriving Repr, DecidableEq

/-- HTTP outcome of a handler: either a success payload or an
`HTTPException(status_code, detail)`. -/
inductive ApiResult (α : Type) where
  | ok (v : α)
  | error (status : Nat) (detail : String)
deriving Repr, DecidableEq

/-- Mongo `find_one({"ad_id": aid})` on the ads collection. -/
def findAd (ads : List Ad) (aid : String) : Option Ad :=
  ads.find? (fun a => a.ad_id == aid)

/-- The session check run on every authenticated request
(`get_current_user` in src/server.py): resolve the token to a session,
reject it when expired, then resolve the user of the session. -/
def get_current_user (db : DB) (token : String) (now : Nat) : Option User :=
  match db.user_sessions.find? (fun s => s.session_token == token) with
  | none => none
  | some s =>
      if s.expires_at < now then none
      else db.users.find? (fun u => u.user_id == s.user_id)

/-- Query parameters of `GET /ads`. -/
structure AdsQueryParams where
  category_id : Option String
  subcategory_id : Option String
  city_id : Option String
  search : Option String
  min_price : Option Int
  max_price : Option Int
deriving Repr, DecidableEq

/-- The Mongo filter document built by `get_ads`: `status=active` always,
plus the optional category/subcategory/city equality filters, the
case-insensitive substring search over title OR description, and the
inclusive price range (a null price matches no numeric bound). -/
def adMatches (q : AdsQueryParams) (a : Ad) : Bool :=
  a.status == "active"
  && (match q.category_id with | some c => a.category_id == c | none => true)
  && (match q.subcategory_id with | some s => a.subcategory_id == some s | none => true)
  && (match q.city_id with | some c => a.city_id == c | none => true)
  && (match q.search with
      | some s => containsCI a.title s || containsCI a.description s
      | none => true)
  && (match q.min_price with
      | some mp => (match a.price with | some p => decide (mp ≤ p) | none => false)
      | none => true)
  && (match q.max_price with
      | some xp => (match a.price with | some p => decide (p ≤ xp) | none => false)
      | none => true)

/-- The `sort_options` table of `get_ads`: each named sort mode maps to a
list of (field, direction) keys handed to the sort of the store; -1 is
descending, 1 ascending.  An unrecognised mode falls back to `newest`
(`sort_options.get(sort, sort_options["newest"])`). -/
def sort_options (sort : String) : List (String × Int) :=
  if sort == "newest" then [("topup_rank", -1), ("created_at", -1)]
  else if sort == "oldest" then [("created_at", 1)]
  else if sort == "price_low" then [("topup_rank", -1), ("price", 1)]
  else if sort == "price_high" then [("topup_rank", -1), ("price", -1)]
  else if sort == "boosted" then
    [("topup_rank", -1), ("is_boosted", -1), ("boost_expires_at", -1), ("created_at", -1)]
  else [("topup_rank", -1), ("created_at", -1)]

/-- The final sort key list of `get_ads`: for `category_id == "escorts"`
the keys `topup_rank` desc and `is_boosted` desc are forced to the front
and removed from the tail, for every requested mode. -/
def sortKeys (category_id : Option String) (sort : String) : List (String × Int) :=
  let sort_by := sort_options sort
  if category_id == some "escorts" then
    [("topup_rank", -1), ("is_boosted", -1)]
      ++ sort_by.filter (fun s => s.1 != "topup_rank" && s.1 != "is_boosted")
  else sort_by

/-- The fixed ascending milestone table `VIEW_MILESTONES` of src/server.py. -/
def VIEW_MILESTONES : List Nat := [100, 500, 1000, 5000, 10000]

/-- Handler `GET /ads/{ad_id}` (`get_ad`): no authentication and no
status check; a missing ad is 404, otherwise the ad document read before
the increment is returned, `views` is atomically incremented by one, and
the first milestone `m` with `old_views < m ≤ new_views` triggers one
notification to the owner — provided the owner record exists and carries a
non-empty email.  The third component is the sent notification, as
(owner email, milestone). -/
def get_ad (db : DB) (aid : String) : ApiResult Ad × DB × Option (String × Nat) :=
  match findAd db.ads aid with
  | none => (.error 404 "Ad not found", db, none)
  | some ad =>
      let old_views := ad.views
      let new_views := old_views + 1
      let db' : DB :=
        { db with ads := updateFirst (fun a => a.ad_id == aid)
                           (fun a => { a with views := a.views + 1 }) db.ads }
      let notif : Option (String × Nat) :=
        match VIEW_MILESTONES.find? (fun m => decide (old_views < m) && decide (m ≤ new_views)) with
        | some m =>
            match db.users.find? (fun u => u.user_id == ad.user_id) with
            | some owner => if owner.email != "" then some (owner.email, m) else none
            | none => none
        | none => none
      (.ok ad, db', notif)

/-- Request body of `PUT /ads/{ad_id}`: an outer `none` means the field
is absent from the JSON body (and is therefore not written). -/
structure UpdateBody where
  title : Option String
  description : Option String
  price : Option (Option Int)
  price_type : Option String
  contact_phone : Option String
  contact_email : Option String
  details : Option (List (String × String))
  images : Option (List String)
deriving Repr, DecidableEq

/-- The `$set` document built by `update_ad`: each allowed field present in
the body replaces the stored value, and `updated_at` is always stamped. -/
def applyUpdate (b : UpdateBody) (now : Nat) (a : Ad) : Ad :=
  { a with
    title := b.title.getD a.title
    description := b.description.getD a.description
    price := b.price.getD a.price
    price_type := b.price_type.getD a.price_type
    contact_phone := b.contact_phone.getD a.contact_phone
    contact_email := b.contact_email.getD a.contact_email
    details := b.details.getD a.details
    images := b.images.getD a.images
    updated_at := now }

/-- Handler `PUT /ads/{ad_id}` (`update_ad`): 404 when the ad does not
exist, 403 unless the caller owns the ad or is an admin, otherwise the
restricted field update is applied to the ad. -/
def update_ad (db : DB) (user : User) (aid : String) (body : UpdateBody) (now : Nat) :
    ApiResult String × DB :=
  match findAd db.ads aid with
  | none => (.error 404 "Ad not found", db)
  | some ad =>
      if ad.user_id != user.user_id && user.role != "admin" then
        (.error 403 "Not authorized", db)
      else
        (.ok "Ad updated",
         { db with ads := updateFirst (fun a => a.ad_id == aid) (applyUpdate body now) db.ads })

/-- The cooldown window of `topup_ad`: 40 minutes when the caller has
referrals, else 60 (`user.get("referral_count", 0)`). -/
def cooldownMinutes (user : User) : Nat :=
  if user.referral_count > 0 then 40 else 60

/-- The 400 detail string of a top-up attempted inside the cooldown. -/
def topupCooldownMsg (remaining : Nat) : String :=
  "Poți face TopUp din nou în " ++ toString remaining ++ " minute"

/-- Successful response body of `POST /ads/{ad_id}/topup`. -/
structure TopupOk where
  message : String
  next_topup_available_in : Nat
deriving Repr, DecidableEq

/-- Handler `POST /ads/{ad_id}/topup` (`topup_ad`): 404 when the ad is
missing, 403 when the caller is not the owner, 400 unless `status=active`;
then, when a `last_topup` is recorded and fewer than `cooldownMinutes`
minutes have passed since it, 400 with the remaining whole minutes
(`int(cooldown_minutes - time_since_topup)`); otherwise `last_topup` and
`topup_rank` are both set to now.  `topupApply` is the final
"# Perform topup" block of the handler, shared by the no-previous-topup
and cooldown-elapsed paths. -/
def topupApply (db : DB) (user : User) (aid : String) (now : Nat) :
    ApiResult TopupOk × DB :=
  (.ok { message := "TopUp successful",
         next_topup_available_in := cooldownMinutes user },
   { db with ads := updateFirst (fun a => a.ad_id == aid)
                      (fun a => { a with last_topup := some now, topup_rank := now })
                      db.ads })

/-- Handler `POST /ads/{ad_id}/topup` (`topup_ad`): 404 when the ad is
missing, 403 when the caller is not the owner, 400 unless `status=active`;
then the cooldown gate applies when a `last_topup` is recorded. -/
def topup_ad (db : DB) (user : User) (aid : String) (now : Nat) :
    ApiResult TopupOk × DB :=
  match findAd db.ads aid with
  | none => (.error 404 "Ad not found", db)
  | some ad =>
      if ad.user_id != user.user_id then (.error 403 "Not your ad", db)
      else if ad.status != "active" then (.error 400 "Ad must be active to topup", db)
      else
        match ad.last_topup with
        | some last =>
            if (now : Int) - (last : Int) < (cooldownMinutes user : Int) * 60 then
              (.error 400 (topupCooldownMsg
                (((cooldownMinutes user : Int) * 60 - ((now : Int) - (last : Int))) / 60).toNat), db)
            else topupApply db user aid now
        | none => topupApply db user aid now

/-- The correlation blob (`MerchantTrns`) of a webhook delivery after
`json.loads`; a parse failure yields the empty blob (both fields `none`). -/
structure WebhookCorr where
  ad_id : Option String
  payment_type : Option String
deriving Repr, DecidableEq

/-- The `EventData` of a webhook delivery, each field read with `.get` and so
possibly absent. -/
structure WebhookEvent where
  transaction_id : Option String
  order_code : Option Nat
  status_id : Option String
  corr : WebhookCorr
deriving Repr, DecidableEq

/-- Handler `POST /payments/webhook` (`payment_webhook`): only the literal
status `"F"` triggers processing — the payment matching the order code is
marked completed and the ad named by the correlation blob is updated
according to the payment type (post_ad, boost, promote).  Every delivery,
recognised or not, is acknowledged with status "received". -/
def payment_webhook (db : DB) (ev : WebhookEvent) (now : Nat) : String × DB :=
  if ev.status_id == some "F" then
    let payments' :=
      match ev.order_code with
      | some oc =>
          updateFirst (fun p => p.order_code == oc)
            (fun p => { p with status := "completed",
                               transaction_id := ev.transaction_id,
                               completed_at := some now })
            db.payments
      | none => db.payments
    let ads' :=
      match ev.corr.ad_id, ev.corr.payment_type with
      | some aid, some pt =>
          if pt == "post_ad" then
            updateFirst (fun a => a.ad_id == aid)
              (fun a => { a with is_paid := true, status := "pending" }) db.ads
          else if pt == "boost" then
            updateFirst (fun a => a.ad_id == aid)
              (fun a => { a with is_boosted := true,
                                 boost_expires_at := some (now + 86400) }) db.ads
          else if pt == "promote" then
            updateFirst (fun a => a.ad_id == aid)
              (fun a => { a with is_promoted := true,
                                 promote_expires_at := some (now + 604800) }) db.ads
          else db.ads
      | _, _ => db.ads
    ("received", { db with payments := payments', ads := ads' })
  else
    ("received", db)

/-- Handler `DELETE /admin/users/{user_id}` (`admin_delete_user`):
requires the admin role, refuses self-deletion with 400, then deletes
every ad and every session belonging to the target user and the (first
matching) user record itself.  Favorites and messages are not touched. -/
def admin_delete_user (db : DB) (admin : User) (uid : String) : ApiResult String × DB :=
  if admin.role != "admin" then (.error 403 "Admin access required", db)
  else if admin.user_id == uid then (.error 400 "Cannot delete your own account", db)
  else
    (.ok "User and all associated data deleted",
     { db with
       ads := db.ads.filter (fun a => a.user_id != uid)
       user_sessions := db.user_sessions.filter (fun s => s.user_id != uid)
       users := deleteFirst (fun u => u.user_id == uid) db.users })

/-! ## Helper lemmas about the store primitives -/

/-- `update_one` then `find_one` with the same filter returns the updated
document, provided the update does not falsify the filter. -/
theorem find?_updateFirst (p : α → Bool) (f : α → α) (l : List α) (x : α)
    (hf : ∀ y, p y = true → p (f y) = true) (hx : l.find? p = some x) :
    (updateFirst p f l).find? p = some (f x) := by
  induction l with
  | nil => simp at hx
  | cons a l ih =>
      by_cases hpa : p a = true
      · rw [List.find?_cons_of_pos _ hpa] at hx
        rw [updateFirst, if_pos hpa]
        rw [List.find?_cons_of_pos _ (hf a hpa)]
        cases hx
        rfl
      · have hpa' : ¬ p a := fun h => hpa h
        rw [List.find?_cons_of_neg _ hpa'] at hx
        rw [updateFirst, if_neg hpa']
        rw [List.find?_cons_of_neg _ hpa']
        exact ih hx

/-- `delete_one` removes the only matching document: afterwards the same
filter finds nothing, provided at most one document matched. -/
theorem find?_deleteFirst (p : α → Bool) (l : List α) (h : l.countP p ≤ 1) :
    (deleteFirst p l).find? p = none := by
  induction l with
  | nil => rfl
  | cons a l ih =>
      by_cases hpa : p a = true
      · rw [deleteFirst, if_pos hpa]
        rw [List.countP_cons_of_pos _ _ hpa] at h
        have hz : l.countP p = 0 := by omega
        exact List.find?_eq_none.mpr fun x hx hpx => by
          have := List.countP_eq_zero.mp hz x hx
          exact this hpx
      · have hpa' : ¬ p a := fun h' => hpa h'
        rw [deleteFirst, if_neg hpa']
        rw [List.find?_cons_of_neg _ hpa']
        rw [List.countP_cons_of_neg _ _ hpa'] at h
        exact ih h

/-- The milestone scan of `get_ad`: the first milestone `m` with
`old < m ≤ old + 1` is found exactly when `old + 1` is a milestone. -/
theorem find?_milestone (l : List Nat) (old : Nat) (x : Nat) :
    l.find? (fun m => decide (old < m) && decide (m ≤ old + 1)) = some x ↔
      (x = old + 1 ∧ (old + 1) ∈ l) := by
  induction l with
  | nil => simp
  | cons a l ih =>
      by_cases ha : a = old + 1
      · subst ha
        have hpa : (decide (old < old + 1) && decide (old + 1 ≤ old + 1)) = true := by
          simp
        simp only [List.find?_cons, hpa, Option.some_inj, List.mem_cons]
        constructor
        · intro h
          exact ⟨h.symm, by simp⟩
        · intro h
          exact h.1.symm
      · have hpa : (decide (old < a) && decide (a ≤ old + 1)) = false := by
          rcases Nat.lt_or_ge old a with h1 | h1
          · have h2 : ¬ (a ≤ old + 1) := by omega
            simp [h2]
          · have h2 : ¬ (old < a) := by omega
            simp [h2]
        simp only [List.find?_cons, hpa]
        rw [ih]
        simp only [List.mem_cons]
        constructor
        · intro h
          exact ⟨h.1, Or.inr h.2⟩
        · intro h
          refine ⟨h.1, ?_⟩
          rcases h.2 with h2 | h2
          · exact absurd h2.symm ha
          · exact h2

/-- The cooldown window is at least 40 minutes for every caller. -/
theorem cooldownMinutes_ge_40 (user : User) : 40 ≤ cooldownMinutes user := by
  unfold cooldownMinutes
  split <;> omega

/-- Inversion of a successful top-up: the ad exists, the caller owns it,
it is active, any recorded `last_topup` lies at least the cooldown window
in the past, and the returned state carries the rank/last-topup update. -/
theorem topup_ok_inv (db : DB) (user : User) (aid : String) (now : Nat)
    (w : TopupOk) (db' : DB)
    (h : topup_ad db user aid now = (.ok w, db')) :
    ∃ ad, findAd db.ads aid = some ad ∧
      ad.user_id = user.user_id ∧ ad.status = "active" ∧
      (∀ last, ad.last_topup = some last →
        (cooldownMinutes user : Int) * 60 ≤ (now : Int) - (last : Int)) ∧
      db' = { db with ads := updateFirst (fun a => a.ad_id == aid)
                        (fun a => { a with last_topup := some now, topup_rank := now })
                        db.ads } := by
  unfold topup_ad at h
  split at h
  · exact absurd h (by simp)
  · rename_i ad hfind
    refine ⟨ad, hfind, ?_⟩
    split at h
    · exact absurd h (by simp)
    · rename_i hown
      split at h
      · exact absurd h (by simp)
      · rename_i hst
        have hown' : ad.user_id = user.user_id := by
          simpa using hown
        have hst' : ad.status = "active" := by
          simpa using hst
        refine ⟨hown', hst', ?_⟩
        split at h
        · rename_i last hlt
          split at h
          · exact absurd h (by simp)
          · rename_i hcd
            have hdb : db' = _ := congrArg Prod.snd h.symm
            refine ⟨fun l hl => ?_, hdb⟩
            rw [hlt] at hl
            cases hl
            exact le_of_not_lt hcd
        · rename_i hlt
          have hdb : db' = _ := congrArg Prod.snd h.symm
          refine ⟨fun l hl => ?_, hdb⟩
          rw [hlt] at hl
          cases hl

/-! ## Concrete sample state used by the witness theorems -/

/-- Sample ad owner. -/
def wOwner : User :=
  { user_id := "u1", email := "owner@example.com", name := "Owner",
    role := "user", referral_count := 0, is_blocked := false }

/-- Sample unrelated authenticated user (with a referral). -/
def wOther : User :=
  { user_id := "u2", email := "other@example.com", name := "Other",
    role := "user", referral_count := 1, is_blocked := false }

/-- Sample admin. -/
def wAdmin : User :=
  { user_id := "adm", email := "admin@example.com", name := "Admin",
    role := "admin", referral_count := 0, is_blocked := false }

/-- Sample active ad at 99 views, never topped up. -/
def wAd : Ad :=
  { ad_id := "a1", user_id := "u1", title := "Bike", description := "City bike",
    category_id := "vehicles", subcategory_id := none, city_id := "bucuresti",
    price := some 100, price_type := "fixed", contact_phone := "0700",
    contact_email := "owner@example.com", images := [], details := [],
    status := "active", is_boosted := false, boost_expires_at := none,
    is_promoted := false, promote_expires_at := none, views := 99,
    is_paid := true, auto_topup := true, topup_rank := 0, last_topup := none,
    created_at := 10, updated_at := 10 }

/-- Sample active ad last topped up at instant 0. -/
def cdAd : Ad :=
  { wAd with ad_id := "a2", views := 0, topup_rank := 0, last_topup := some 0 }

/-- Sample active ad used for the top-up success witness. -/
def mAd : Ad :=
  { wAd with ad_id := "a3", views := 0 }

/-- Sample pending (not yet moderated) ad, owned by the second user. -/
def pAd : Ad :=
  { wAd with ad_id := "ap", user_id := "u2", status := "pending", views := 3 }

/-- Sample session of the ad owner. -/
def wSession : Session :=
  { session_token := "tok1", user_id := "u1", expires_at := 999999 }

/-- Sample pending payment. -/
def wPayment : Payment :=
  { payment_id := "p1", order_code := 555, ad_id := "a1", user_id := "u1",
    payment_type := "boost", amount := 500, status := "pending",
    transaction_id := none, created_at := 5, completed_at := none }

/-- Sample favorite of the owner. -/
def wFav : Favorite :=
  { favorite_id := "f1", user_id := "u1", ad_id := "ap",
    price_at_favorite := some 100, created_at := 6 }

/-- Sample message received by the owner. -/
def wMsg : Message :=
  { message_id := "m1", conversation_id := "c1", sender_id := "u2",
    receiver_id := "u1", content := "hello", is_read := false, created_at := 7 }

/-- Sample database holding all of the above. -/
def wDB : DB :=
  { users := [wOwner, wAdmin, wOther], user_sessions := [wSession],
    ads := [wAd, cdAd, mAd, pAd], payments := [wPayment],
    favorites := [wFav], messages := [wMsg] }

/-! ## Claim theorems -/

/-- C2: in the `GET /ads` listing, every sort mode among newest,
price_low, price_high and boosted yields a sort key list headed by
`topup_rank` descending (only `oldest` is not so prefixed); with
`category_id = "escorts"` the first two keys are `topup_rank` descending
then `is_boosted` descending whatever the requested mode; and the listing
filter always restricts to `status = "active"`. -/
theorem get_ads_sort_and_filter :
    (∀ cat sort, cat ≠ some "escorts" →
       sort ∈ (["newest", "price_low", "price_high", "boosted"] : List String) →
       (sortKeys cat sort).head? = some ("topup_rank", -1))
    ∧ (∀ cat, cat ≠ some "escorts" →
       (sortKeys cat "oldest").head? = some ("created_at", 1))
    ∧ (∀ sort, (sortKeys (some "escorts") sort).take 2 =
         [("topup_rank", -1), ("is_boosted", -1)])
    ∧ (∀ q a, adMatches q a = true → a.status = "active") := by
  refine ⟨?_, ?_, ?_, ?_⟩
  · intro cat sort hcat hm
    have hc : (cat == some "escorts") = false := beq_eq_false_iff_ne.mpr hcat
    fin_cases hm <;> simp [sortKeys, sort_options, hc]
  · intro cat hcat
    have hc : (cat == some "escorts") = false := beq_eq_false_iff_ne.mpr hcat
    simp [sortKeys, sort_options, hc]
  · intro sort
    rfl
  · intro q a h
    simp only [adMatches, Bool.and_eq_true] at h
    exact eq_of_beq h.1.1.1.1.1.1

/-- C2 witness: the default listing (no category, sort `newest`) leads
with `topup_rank` descending, and the escorts listing under sort `oldest`
still leads with `topup_rank` then `is_boosted`. -/
theorem get_ads_sort_and_filter_witness :
    (sortKeys none "newest").head? = some ("topup_rank", -1)
    ∧ (sortKeys (some "escorts") "oldest").take 2 =
        [("topup_rank", -1), ("is_boosted", -1)] :=
  ⟨get_ads_sort_and_filter.1 none "newest" (by decide) (by decide),
   get_ads_sort_and_filter.2.2.1 "oldest"⟩

/-- C1: the top-up endpoint is owner-only and requires an active ad: a
missing ad is 404; a foreign ad is 403; a non-active owned ad is 400; an
owned active ad whose `last_topup` is within the cooldown window (40
minutes when the caller has `referral_count > 0`, else 60) is 400 with
the remaining-minutes message; an owned active ad with no `last_topup`,
or whose cooldown has elapsed, succeeds. -/
theorem topup_access_and_cooldown (db : DB) (user : User) (aid : String) (now : Nat) :
    (findAd db.ads aid = none →
       (topup_ad db user aid now).1 = .error 404 "Ad not found")
    ∧ (∀ ad, findAd db.ads aid = some ad → ad.user_id ≠ user.user_id →
         (topup_ad db user aid now).1 = .error 403 "Not your ad")
    ∧ (∀ ad, findAd db.ads aid = some ad → ad.user_id = user.user_id →
         ad.status ≠ "active" →
         (topup_ad db user aid now).1 = .error 400 "Ad must be active to topup")
    ∧ (∀ ad last, findAd db.ads aid = some ad → ad.user_id = user.user_id →
         ad.status = "active" → ad.last_topup = some last →
         (now : Int) - (last : Int) < (cooldownMinutes user : Int) * 60 →
         (topup_ad db user aid now).1 = .error 400 (topupCooldownMsg
           (((cooldownMinutes user : Int) * 60 - ((now : Int) - (last : Int))) / 60).toNat))
    ∧ (∀ ad, findAd db.ads aid = some ad → ad.user_id = user.user_id →
         ad.status = "active" →
         (ad.last_topup = none ∨ ∃ last, ad.last_topup = some last ∧
            (cooldownMinutes user : Int) * 60 ≤ (now : Int) - (last : Int)) →
         (topup_ad db user aid now).1 =
           .ok { message := "TopUp successful",
                 next_topup_available_in := cooldownMinutes user }) := by
  refine ⟨?_, ?_, ?_, ?_, ?_⟩
  · intro h
    simp [topup_ad, h]
  · intro ad hf hne
    simp [topup_ad, hf, hne]
  · intro ad hf h1 h2
    simp [topup_ad, hf, h1, h2]
  · intro ad last hf h1 h2 hlt hcd
    simp [topup_ad, hf, h1, h2, hlt, hcd]
  · intro ad hf h1 h2 hlast
    rcases hlast with hnone | ⟨last, hlt, hge⟩
    · simp [topup_ad, hf, h1, h2, hnone, topupApply]
    · simp [topup_ad, hf, h1, h2, hlt, not_lt.mpr hge, topupApply]

/-- C1 witness: a repeat top-up 1000 seconds after the previous one, by an
owner without referrals (60-minute window), is rejected with 43 minutes
remaining. -/
theorem topup_access_and_cooldown_witness :
    (topup_ad wDB wOwner "a2" 1000).1 = .error 400 (topupCooldownMsg 43) :=
  (topup_access_and_cooldown wDB wOwner "a2" 1000).2.2.2.1 cdAd 0 rfl rfl rfl rfl
    (by decide)

/-- C6: every successful top-up stores the current instant in both
`last_topup` and `topup_rank`; consequently over two consecutive
successful top-ups of the same ad the stored `topup_rank` strictly
increases (the second can only succeed once the cooldown of the first — at
least 40 minutes — has elapsed). -/
theorem topup_rank_strictly_increases :
    (∀ db user aid now w db', topup_ad db user aid now = (.ok w, db') →
       ∃ ad', findAd db'.ads aid = some ad' ∧
         ad'.topup_rank = now ∧ ad'.last_topup = some now)
    ∧ (∀ db u1 u2 aid t1 t2 w1 w2 db1 db2 ad1 ad2,
         topup_ad db u1 aid t1 = (.ok w1, db1) →
         topup_ad db1 u2 aid t2 = (.ok w2, db2) →
         findAd db1.ads aid = some ad1 → findAd db2.ads aid = some ad2 →
         ad1.topup_rank < ad2.topup_rank) := by
  have key : ∀ db user aid now w db', topup_ad db user aid now = (.ok w, db') →
      ∃ ad, findAd db.ads aid = some ad ∧
        findAd db'.ads aid = some { ad with last_topup := some now, topup_rank := now } ∧
        (∀ last, ad.last_topup = some last →
          (cooldownMinutes user : Int) * 60 ≤ (now : Int) - (last : Int)) := by
    intro db user aid now w db' h
    obtain ⟨ad, hfind, _, _, hcool, hdb⟩ := topup_ok_inv db user aid now w db' h
    refine ⟨ad, hfind, ?_, hcool⟩
    rw [hdb]
    exact find?_updateFirst _ _ _ _ (fun y hy => hy) hfind
  constructor
  · intro db user aid now w db' h
    obtain ⟨ad, _, hfind', _⟩ := key db user aid now w db' h
    exact ⟨_, hfind', rfl, rfl⟩
  · intro db u1 u2 aid t1 t2 w1 w2 db1 db2 ad1 ad2 h1 h2 hf1 hf2
    obtain ⟨adA, _, hfA, _⟩ := key db u1 aid t1 w1 db1 h1
    obtain ⟨adB, hfB, hfB', hcool⟩ := key db1 u2 aid t2 w2 db2 h2
    rw [hfA] at hfB
    cases hfB
    rw [hf1] at hfA
    cases hfA
    rw [hf2] at hfB'
    cases hfB'
    have hc := hcool t1 rfl
    have h40 : (40 : Nat) ≤ cooldownMinutes u2 := cooldownMinutes_ge_40 u2
    simp only [Ad.topup_rank]
    have : (t1 : Int) < (t2 : Int) := by
      have : (2400 : Int) ≤ (cooldownMinutes u2 : Int) * 60 := by
        have : (40 : Int) ≤ (cooldownMinutes u2 : Int) := by exact_mod_cast h40
        nlinarith
      omega
    exact_mod_cast this

/-- C6 witness: a first successful top-up of the never-topped ad at
instant 5000 records rank and last-topup 5000. -/
theorem topup_rank_strictly_increases_witness :
    ∃ ad', findAd (topup_ad wDB wOwner "a3" 5000).2.ads "a3" = some ad' ∧
      ad'.topup_rank = 5000 ∧ ad'.last_topup = some 5000 :=
  topup_rank_strictly_increases.1 wDB wOwner "a3" 5000
    { message := "TopUp successful", next_topup_available_in := 60 }
    (topup_ad wDB wOwner "a3" 5000).2 rfl

/-- C3: a webhook delivery with the literal status "F" marks the payment
matching the order code completed (stamping transaction id and completion
time), and updates the ad named by the correlation blob according to the
payment type: post_ad sets `is_paid` and forces status back to pending,
boost sets `is_boosted` with a 24-hour expiry, promote sets `is_promoted`
with a 7-day expiry. -/
theorem payment_webhook_success_effects (db : DB) (ev : WebhookEvent) (now : Nat)
    (hF : ev.status_id = some "F") :
    (∀ oc p, ev.order_code = some oc →
       db.payments.find? (fun q => q.order_code == oc) = some p →
       (payment_webhook db ev now).2.payments.find? (fun q => q.order_code == oc) =
         some { p with status := "completed", transaction_id := ev.transaction_id,
                       completed_at := some now })
    ∧ (∀ aid ad, ev.corr.ad_id = some aid → ev.corr.payment_type = some "post_ad" →
         findAd db.ads aid = some ad →
         findAd (payment_webhook db ev now).2.ads aid =
           some { ad with is_paid := true, status := "pending" })
    ∧ (∀ aid ad, ev.corr.ad_id = some aid → ev.corr.payment_type = some "boost" →
         findAd db.ads aid = some ad →
         findAd (payment_webhook db ev now).2.ads aid =
           some { ad with is_boosted := true, boost_expires_at := some (now + 86400) })
    ∧ (∀ aid ad, ev.corr.ad_id = some aid → ev.corr.payment_type = some "promote" →
         findAd db.ads aid = some ad →
         findAd (payment_webhook db ev now).2.ads aid =
           some { ad with is_promoted := true,
                          promote_expires_at := some (now + 604800) }) := by
  refine ⟨?_, ?_, ?_, ?_⟩
  · intro oc p hoc hp
    simp only [payment_webhook, hF, hoc]
    exact find?_updateFirst _ _ _ _ (fun y hy => hy) hp
  all_goals
    intro aid ad haid hpt hfind
    simp only [payment_webhook, hF, haid, hpt]
    exact find?_updateFirst _ _ _ _ (fun y hy => hy) hfind

/-- C3 witness: a status-"F" boost webhook for order 555 marks the
sample payment completed with transaction id and completion instant. -/
theorem payment_webhook_success_effects_witness :
    (payment_webhook wDB
        { transaction_id := some "tx9", order_code := some 555,
          status_id := some "F", corr := { ad_id := some "a1", payment_type := some "boost" } }
        2000).2.payments.find? (fun q => q.order_code == 555) =
      some { wPayment with status := "completed", transaction_id := some "tx9",
                           completed_at := some 2000 } :=
  (payment_webhook_success_effects wDB
      { transaction_id := some "tx9", order_code := some 555,
        status_id := some "F", corr := { ad_id := some "a1", payment_type := some "boost" } }
      2000 rfl).1 555 wPayment rfl rfl

/-- C5: a webhook delivery whose status is anything other than the
literal "F" leaves the whole store untouched, and every delivery —
whatever its status or correlation data — is acknowledged with
status "received". -/
theorem payment_webhook_non_success_noop (db : DB) (ev : WebhookEvent) (now : Nat) :
    (ev.status_id ≠ some "F" → payment_webhook db ev now = ("received", db))
    ∧ (payment_webhook db ev now).1 = "received" := by
  constructor
  · intro h
    have hb : (ev.status_id == some "F") = false := beq_eq_false_iff_ne.mpr h
    simp [payment_webhook, hb]
  · unfold payment_webhook
    split <;> rfl

/-- C5 witness: a status-"E" (failed) delivery with valid correlation data
changes nothing and is acknowledged. -/
theorem payment_webhook_non_success_noop_witness :
    payment_webhook wDB
        { transaction_id := some "tx9", order_code := some 555,
          status_id := some "E", corr := { ad_id := some "a1", payment_type := some "boost" } }
        2000 = ("received", wDB) :=
  (payment_webhook_non_success_noop wDB
      { transaction_id := some "tx9", order_code := some 555,
        status_id := some "E", corr := { ad_id := some "a1", payment_type := some "boost" } }
      2000).1 (by decide)

/-- C4: fetching the detail of an ad increments its views by exactly one and —
when the owning user exists with an email on file — sends a milestone
notification exactly when some milestone m satisfies
`old_views < m ≤ old_views + 1`; at most one notification fires per fetch
and a fetch crossing no milestone sends none. -/
theorem view_milestone_notification (db : DB) (aid : String) (ad : Ad) (owner : User)
    (hfind : findAd db.ads aid = some ad)
    (howner : db.users.find? (fun u => u.user_id == ad.user_id) = some owner)
    (hmail : owner.email ≠ "") :
    (get_ad db aid).1 = .ok ad
    ∧ findAd (get_ad db aid).2.1.ads aid = some { ad with views := ad.views + 1 }
    ∧ (∀ e m, (get_ad db aid).2.2 = some (e, m) ↔
        (e = owner.email ∧ ad.views < m ∧ m ≤ ad.views + 1 ∧ m ∈ VIEW_MILESTONES)) := by
  refine ⟨?_, ?_, ?_⟩
  · simp [get_ad, hfind]
  · simp only [get_ad, hfind]
    exact find?_updateFirst _ _ _ _ (fun y hy => hy) hfind
  · intro e m
    simp only [get_ad, hfind]
    by_cases hm : (ad.views + 1) ∈ VIEW_MILESTONES
    · have hfm : VIEW_MILESTONES.find?
          (fun m => decide (ad.views < m) && decide (m ≤ ad.views + 1)) =
            some (ad.views + 1) :=
        (find?_milestone _ _ _).mpr ⟨rfl, hm⟩
      have hb : (owner.email != "") = true := bne_iff_ne.mpr hmail
      simp only [hfm, howner, hb, if_pos]
      constructor
      · intro h
        have h' := Option.some_inj.mp h
        have he : owner.email = e := congrArg Prod.fst h'
        have hmm : ad.views + 1 = m := congrArg Prod.snd h'
        exact ⟨he.symm, by omega, by omega, hmm ▸ hm⟩
      · rintro ⟨he, hlt, hle, _⟩
        have : m = ad.views + 1 := by omega
        subst this
        rw [he]
    · have hfm : VIEW_MILESTONES.find?
          (fun m => decide (ad.views < m) && decide (m ≤ ad.views + 1)) = none := by
        cases hx : VIEW_MILESTONES.find?
            (fun m => decide (ad.views < m) && decide (m ≤ ad.views + 1)) with
        | none => rfl
        | some x =>
            obtain ⟨hx1, hx2⟩ := (find?_milestone _ _ _).mp hx
            exact absurd hx2 hm
      simp only [hfm]
      constructor
      · intro h
        exact absurd h (by simp)
      · rintro ⟨he, hlt, hle, hmem⟩
        have : m = ad.views + 1 := by omega
        subst this
        exact absurd hmem hm

/-- C4 witness: viewing the sample ad at 99 views sends exactly the
100-view milestone notification to the owner email. -/
theorem view_milestone_notification_witness :
    (get_ad wDB "a1").2.2 = some ("owner@example.com", 100) :=
  ((view_milestone_notification wDB "a1" wAd wOwner rfl rfl (by decide)).2.2
      "owner@example.com" 100).mpr ⟨rfl, by decide, by decide, by decide⟩

/-- C10: the detail fetch takes no authentication input and checks no
moderation status: any existing ad — whatever its status — is returned
in full and its views counter is incremented by one, exactly as for an
active ad. -/
theorem get_ad_public_no_status_gate (db : DB) (aid : String) (ad : Ad)
    (hfind : findAd db.ads aid = some ad) :
    (get_ad db aid).1 = .ok ad
    ∧ findAd (get_ad db aid).2.1.ads aid = some { ad with views := ad.views + 1 } := by
  constructor
  · simp [get_ad, hfind]
  · simp only [get_ad, hfind]
    exact find?_updateFirst _ _ _ _ (fun y hy => hy) hfind

/-- C10 witness: the pending sample ad is served unauthenticated and its
views go from 3 to 4. -/
theorem get_ad_public_no_status_gate_witness :
    (get_ad wDB "ap").1 = .ok pAd
    ∧ findAd (get_ad wDB "ap").2.1.ads "ap" = some { pAd with views := pAd.views + 1 } :=
  get_ad_public_no_status_gate wDB "ap" pAd rfl

/-- C7: the ad update endpoint is restricted to the owner or an admin
(any other authenticated caller gets 403 and the store is untouched); an
authorized update rewrites only the eight allowed content fields that are
present in the body plus `updated_at`, which is always stamped, leaving
status, payment/boost/promotion flags, rank, views, ownership and
creation time unchanged. -/
theorem update_ad_auth_and_frame (db : DB) (user : User) (aid : String)
    (body : UpdateBody) (now : Nat) (ad : Ad)
    (hfind : findAd db.ads aid = some ad) :
    (ad.user_id ≠ user.user_id → user.role ≠ "admin" →
       update_ad db user aid body now = (.error 403 "Not authorized", db))
    ∧ (ad.user_id = user.user_id ∨ user.role = "admin" →
        (update_ad db user aid body now).1 = .ok "Ad updated"
        ∧ ∃ ad', findAd (update_ad db user aid body now).2.ads aid = some ad'
            ∧ ad'.status = ad.status
            ∧ ad'.is_paid = ad.is_paid
            ∧ ad'.is_boosted = ad.is_boosted
            ∧ ad'.boost_expires_at = ad.boost_expires_at
            ∧ ad'.is_promoted = ad.is_promoted
            ∧ ad'.promote_expires_at = ad.promote_expires_at
            ∧ ad'.topup_rank = ad.topup_rank
            ∧ ad'.last_topup = ad.last_topup
            ∧ ad'.views = ad.views
            ∧ ad'.user_id = ad.user_id
            ∧ ad'.created_at = ad.created_at
            ∧ ad'.auto_topup = ad.auto_topup
            ∧ ad'.category_id = ad.category_id
            ∧ ad'.subcategory_id = ad.subcategory_id
            ∧ ad'.city_id = ad.city_id
            ∧ ad'.updated_at = now
            ∧ ad'.title = body.title.getD ad.title
            ∧ ad'.description = body.description.getD ad.description
            ∧ ad'.price = body.price.getD ad.price
            ∧ ad'.price_type = body.price_type.getD ad.price_type
            ∧ ad'.contact_phone = body.contact_phone.getD ad.contact_phone
            ∧ ad'.contact_email = body.contact_email.getD ad.contact_email
            ∧ ad'.details = body.details.getD ad.details
            ∧ ad'.images = body.images.getD ad.images) := by
  constructor
  · intro h1 h2
    simp [update_ad, hfind, h1, h2]
  · intro hauth
    have hcond : ¬ ((ad.user_id != user.user_id && user.role != "admin") = true) := by
      rcases hauth with h | h <;> simp [h]
    constructor
    · simp [update_ad, hfind, hcond]
    · refine ⟨applyUpdate body now ad, ?_, rfl, rfl, rfl, rfl, rfl, rfl, rfl, rfl,
        rfl, rfl, rfl, rfl, rfl, rfl, rfl, rfl, rfl, rfl, rfl, rfl, rfl, rfl, rfl, rfl⟩
      simp only [update_ad, hfind, if_neg hcond]
      exact find?_updateFirst _ _ _ _ (fun y hy => hy) hfind

/-- C7 witness: a third authenticated user who neither owns the sample
ad nor is an admin receives 403 and the store is unchanged. -/
theorem update_ad_auth_and_frame_witness :
    update_ad wDB wOther "a1"
        { title := some "New", description := none, price := none,
          price_type := none, contact_phone := none, contact_email := none,
          details := none, images := none } 777 =
      (.error 403 "Not authorized", wDB) :=
  (update_ad_auth_and_frame wDB wOther "a1"
      { title := some "New", description := none, price := none,
        price_type := none, contact_phone := none, contact_email := none,
        details := none, images := none } 777 wAd rfl).1 (by decide) (by decide)

/-- C9: an admin who targets their own user id with the admin
user-deletion endpoint gets 400 and the store is returned unchanged —
nothing (user record, ads, sessions) is deleted. -/
theorem admin_self_delete_rejected (db : DB) (admin : User)
    (hrole : admin.role = "admin") :
    admin_delete_user db admin admin.user_id =
      (.error 400 "Cannot delete your own account", db) := by
  have h1 : ¬ ((admin.role != "admin") = true) := by simp [hrole]
  have h2 : (admin.user_id == admin.user_id) = true := beq_self_eq_true _
  simp [admin_delete_user, h1, h2]

/-- C9 witness: the sample admin attempting to delete themselves gets 400
with the sample store unchanged. -/
theorem admin_self_delete_rejected_witness :
    admin_delete_user wDB wAdmin wAdmin.user_id =
      (.error 400 "Cannot delete your own account", wDB) :=
  admin_self_delete_rejected wDB wAdmin rfl

/-- C8: the admin user-deletion endpoint removes every ad owned by the
target user (their fetch afterwards is 404), removes every session of the
target (those tokens no longer authenticate), and removes the user
record, while leaving favorites and messages untouched. -/
theorem admin_delete_user_cascade (db : DB) (admin : User) (uid : String)
    (hrole : admin.role = "admin") (hne : admin.user_id ≠ uid) :
    (admin_delete_user db admin uid).1 = .ok "User and all associated data deleted"
    ∧ (∀ a ∈ (admin_delete_user db admin uid).2.ads, a.user_id ≠ uid)
    ∧ (∀ a ∈ db.ads, a.user_id ≠ uid → a ∈ (admin_delete_user db admin uid).2.ads)
    ∧ (∀ s ∈ (admin_delete_user db admin uid).2.user_sessions, s.user_id ≠ uid)
    ∧ (∀ aid, (∀ a ∈ db.ads, a.ad_id = aid → a.user_id = uid) →
        (get_ad (admin_delete_user db admin uid).2 aid).1 = .error 404 "Ad not found")
    ∧ (∀ tok now, (∀ s ∈ db.user_sessions, s.session_token = tok → s.user_id = uid) →
        get_current_user (admin_delete_user db admin uid).2 tok now = none)
    ∧ (admin_delete_user db admin uid).2.favorites = db.favorites
    ∧ (admin_delete_user db admin uid).2.messages = db.messages
    ∧ (db.users.countP (fun u => u.user_id == uid) ≤ 1 →
        (admin_delete_user db admin uid).2.users.find? (fun u => u.user_id == uid) = none) := by
  have h1 : ¬ ((admin.role != "admin") = true) := by simp [hrole]
  have h2 : ¬ ((admin.user_id == uid) = true) := by simp [hne]
  have hres : admin_delete_user db admin uid =
      (.ok "User and all associated data deleted",
       { db with
         ads := db.ads.filter (fun a => a.user_id != uid)
         user_sessions := db.user_sessions.filter (fun s => s.user_id != uid)
         users := deleteFirst (fun u => u.user_id == uid) db.users }) := by
    simp [admin_delete_user, h1, h2]
  rw [hres]
  refine ⟨rfl, ?_, ?_, ?_, ?_, ?_, rfl, rfl, ?_⟩
  · intro a ha
    have := (List.mem_filter.mp ha).2
    simpa using this
  · intro a ha hne'
    exact List.mem_filter.mpr ⟨ha, bne_iff_ne.mpr hne'⟩
  · intro s hs
    have := (List.mem_filter.mp hs).2
    simpa using this
  · intro aid hall
    have hnone : findAd (db.ads.filter (fun a => a.user_id != uid)) aid = none := by
      apply List.find?_eq_none.mpr
      intro a ha hbeq
      have hmem := List.mem_filter.mp ha
      have haid : a.ad_id = aid := by simpa using hbeq
      have huid : a.user_id = uid := hall a hmem.1 haid
      have : a.user_id ≠ uid := by simpa using hmem.2
      exact this huid
    simp [get_ad, hnone]
  · intro tok now hall
    have hnone : (db.user_sessions.filter (fun s => s.user_id != uid)).find?
        (fun s => s.session_token == tok) = none := by
      apply List.find?_eq_none.mpr
      intro s hs hbeq
      have hmem := List.mem_filter.mp hs
      have htok : s.session_token = tok := by simpa using hbeq
      have huid : s.user_id = uid := hall s hmem.1 htok
      have : s.user_id ≠ uid := by simpa using hmem.2
      exact this huid
    simp [get_current_user, hnone]
  · intro hcount
    exact find?_deleteFirst _ _ hcount

/-- C8 witness: deleting the sample owner removes their ads (fetching ad
"a1" now 404s), invalidates their session token, deletes their user
record, and leaves favorites and messages as they were. -/
theorem admin_delete_user_cascade_witness :
    (get_ad (admin_delete_user wDB wAdmin "u1").2 "a1").1 = .error 404 "Ad not found"
    ∧ get_current_user (admin_delete_user wDB wAdmin "u1").2 "tok1" 0 = none
    ∧ (admin_delete_user wDB wAdmin "u1").2.favorites = wDB.favorites
    ∧ (admin_delete_user wDB wAdmin "u1").2.users.find?
        (fun u => u.user_id == "u1") = none := by
  have h := admin_delete_user_cascade wDB wAdmin "u1" rfl (by decide)
  exact ⟨h.2.2.2.2.1 "a1" (by decide), h.2.2.2.2.2.1 "tok1" 0 (by decide),
    h.2.2.2.2.2.2.1, h.2.2.2.2.2.2.2.2 (by decide)⟩

end X67
